import Mathlib

/-!
Shallow embedding of the scoring engine of the `hardware_diagnostic`
repository (`src/src/engine.rs`).

Modelling conventions:
* Rust `f32`/`f64` arithmetic is modelled by exact rational arithmetic
  over `ℚ` (every constant in the engine is a short decimal literal);
* `u64`/`usize` fields are modelled by `ℕ`;
* the one fallible operation, the unguarded `u64` subtraction
  `total_space - available_space` in `disk_info`, is modelled by an
  `Option ℕ` whose `none` branch is the Rust underflow (panic) branch;
* Rust's `str::contains` (substring search) is modelled by an explicit
  recursive search over the string's character list.

The collectors (`cpu_info`, `ram_info`, `disk_info`) perform OS calls;
only their pure arithmetic (the percentage computations with their
zero-denominator guards, and the used-space subtraction) is embedded.
The scoring pipeline of `calculate_performance_score` is embedded as a
pure function of the three snapshots, exactly as the source computes it
after collection.
-/

/-- Prefix test on character lists: does `pat` start `s`?  Helper for the
model of Rust's `str::contains`. -/
def chars_start : List Char → List Char → Bool
  | [], _ => true
  | _ :: _, [] => false
  | p :: ps, c :: cs => p == c && chars_start ps cs

/-- Substring search on character lists: does `pat` occur contiguously in
`s`?  Helper for the model of Rust's `str::contains`. -/
def chars_contain : List Char → List Char → Bool
  | [], pat => pat.isEmpty
  | c :: rest, pat => chars_start pat (c :: rest) || chars_contain rest pat

/-- Model of Rust's `str::contains(pat)`: substring search. -/
def str_contains (s pat : String) : Bool :=
  chars_contain s.data pat.data

/-- `CpuInfo` from `engine.rs`: the CPU snapshot. -/
structure CpuInfo where
  number_cpus : ℕ
  cpu_usage : ℚ
  frequency : ℕ
  name : String
  physical_cores : Option ℕ

/-- `RamInfo` from `engine.rs`: the RAM/swap snapshot. -/
structure RamInfo where
  total_ram : ℕ
  used_ram : ℕ
  free_ram : ℕ
  total_swap : ℕ
  used_swap : ℕ
  ram_usage_percent : ℚ
  swap_usage_percent : ℚ

/-- `DiskInfo` from `engine.rs`: one disk's snapshot. -/
structure DiskInfo where
  name : String
  mount_point : String
  total_space : ℕ
  available_space : ℕ
  used_space : ℕ
  usage_percent : ℚ
  file_system : String
  disk_type : String

/-- `PerformanceCategory` from `engine.rs`: the four condition tiers. -/
inductive PerformanceCategory where
  | Descarte
  | Manutencao
  | Precaucao
  | BomEstado
deriving DecidableEq, Repr

/-- `PerformanceScore` from `engine.rs`: the engine's result record. -/
structure PerformanceScore where
  overall_score : ℚ
  cpu_score : ℚ
  ram_score : ℚ
  disk_score : ℚ
  category : PerformanceCategory
  recommendations : List String

/-- The RAM usage percentage computed in `ram_info` (`engine.rs`
lines 224-228): `used/total*100`, with the zero-total guard giving 0. -/
def ram_usage_percent_of (used_ram total_ram : ℕ) : ℚ :=
  if 0 < total_ram then ((used_ram : ℚ) / (total_ram : ℚ)) * 100 else 0

/-- The swap usage percentage computed in `ram_info` (`engine.rs`
lines 230-234): `used/total*100`, with the zero-total guard giving 0. -/
def swap_usage_percent_of (used_swap total_swap : ℕ) : ℚ :=
  if 0 < total_swap then ((used_swap : ℚ) / (total_swap : ℚ)) * 100 else 0

/-- The per-disk usage percentage computed in `disk_info` (`engine.rs`
lines 271-275): `used/total*100`, with the zero-total guard giving 0. -/
def disk_usage_percent_of (used_space total_space : ℕ) : ℚ :=
  if 0 < total_space then ((used_space : ℚ) / (total_space : ℚ)) * 100 else 0

/-- The used-space computation in `disk_info` (`engine.rs` line 270):
`let used_space = total_space - available_space;` on `u64`, with no
guard.  The subtraction underflows (panics) when `available_space >
total_space`; that fallible branch is modelled as `none`. -/
def used_space_of (total_space available_space : ℕ) : Option ℕ :=
  if available_space ≤ total_space then some (total_space - available_space) else none

/-- The clamp applied at the end of each component score (`engine.rs`
lines 382-388 and twins): below 0 gives 0, above 10 gives 10. -/
def clampScore (score : ℚ) : ℚ :=
  if score < 0 then 0 else if score > 10 then 10 else score

/-- Core-count factor of `calculate_cpu_score` (the `match` on
`number_cpus`): ranges `0..=1`, `2`, `3..=4`, `5..=8`, catch-all. -/
def cores_score (number_cpus : ℕ) : ℚ :=
  if number_cpus ≤ 1 then 2
  else if number_cpus = 2 then 4
  else if number_cpus ≤ 4 then 6
  else if number_cpus ≤ 8 then 8
  else 10

/-- Utilization factor of `calculate_cpu_score`. -/
def usage_score (cpu_usage : ℚ) : ℚ :=
  if cpu_usage < 30 then 10
  else if cpu_usage < 60 then 7
  else if cpu_usage < 85 then 4
  else 1

/-- Frequency factor of `calculate_cpu_score`. -/
def freq_score (frequency : ℕ) : ℚ :=
  if frequency < 2000 then 3
  else if frequency < 3000 then 6
  else if frequency < 4000 then 8
  else 10

/-- `calculate_cpu_score` from `engine.rs` lines 344-389. -/
def calculate_cpu_score (cpu : CpuInfo) : ℚ :=
  clampScore (cores_score cpu.number_cpus * 0.4 + usage_score cpu.cpu_usage * 0.4 +
    freq_score cpu.frequency * 0.2)

/-- RAM usage factor of `calculate_ram_score`. -/
def ram_usage_score (ram_usage_percent : ℚ) : ℚ :=
  if ram_usage_percent < 60 then 10
  else if ram_usage_percent < 75 then 7
  else if ram_usage_percent < 90 then 4
  else 1

/-- Swap factor of `calculate_ram_score` (`engine.rs` lines 407-417):
no swap configured scores the fixed neutral 8. -/
def swap_score (ram : RamInfo) : ℚ :=
  if ram.total_swap = 0 then 8
  else if ram.swap_usage_percent < 10 then 10
  else if ram.swap_usage_percent < 30 then 7
  else if ram.swap_usage_percent < 50 then 4
  else 1

/-- Capacity factor of `calculate_ram_score`: total RAM in GiB
(`total_ram / 1_073_741_824.0`, a binary divisor). -/
def capacity_score (total_ram : ℕ) : ℚ :=
  if (total_ram : ℚ) / 1073741824 < 4 then 3
  else if (total_ram : ℚ) / 1073741824 < 8 then 6
  else if (total_ram : ℚ) / 1073741824 < 16 then 8
  else 10

/-- `calculate_ram_score` from `engine.rs` lines 392-441. -/
def calculate_ram_score (ram : RamInfo) : ℚ :=
  clampScore (ram_usage_score ram.ram_usage_percent * 0.5 + swap_score ram * 0.3 +
    capacity_score ram.total_ram * 0.2)

/-- Per-disk usage factor of `calculate_disk_score`. -/
def disk_usage_score (usage_percent : ℚ) : ℚ :=
  if usage_percent < 70 then 10
  else if usage_percent < 85 then 7
  else if usage_percent < 95 then 4
  else 1

/-- Per-disk type factor of `calculate_disk_score`: `disk_type`
containing "SSD" or "NVMe" scores 10, containing "HDD" scores 6,
anything else 8. -/
def disk_type_score (disk_type : String) : ℚ :=
  if str_contains disk_type "SSD" || str_contains disk_type "NVMe" then 10
  else if str_contains disk_type "HDD" then 6
  else 8

/-- Per-disk free-space factor of `calculate_disk_score`: available
space in decimal GB (`available_space / 1_000_000_000.0`). -/
def free_space_score (available_space : ℕ) : ℚ :=
  if (available_space : ℚ) / 1000000000 > 100 then 10
  else if (available_space : ℚ) / 1000000000 > 50 then 8
  else if (available_space : ℚ) / 1000000000 > 20 then 6
  else if (available_space : ℚ) / 1000000000 > 10 then 4
  else 1

/-- The weighted per-disk composite inside the loop of
`calculate_disk_score` (before its clamp). -/
def disk_composite (disk : DiskInfo) : ℚ :=
  disk_usage_score disk.usage_percent * 0.5 + disk_type_score disk.disk_type * 0.3 +
    free_space_score disk.available_space * 0.2

/-- The accumulation loop of `calculate_disk_score`: running
`(total_score, count)`, adding each disk's clamped composite and
incrementing the count. -/
def disk_fold (disks : List DiskInfo) : ℚ × ℕ :=
  List.foldl (fun acc disk => (acc.1 + clampScore (disk_composite disk), acc.2 + 1)) (0, 0) disks

/-- `calculate_disk_score` from `engine.rs` lines 444-509: 5 for an
empty list, otherwise the accumulated clamped composites divided by the
count. -/
def calculate_disk_score (disks : List DiskInfo) : ℚ :=
  if disks.isEmpty then 5
  else if 0 < (disk_fold disks).2 then (disk_fold disks).1 / ((disk_fold disks).2 : ℚ)
  else 5

/-- `determine_category` from `engine.rs` lines 512-519 (a `match` with
strict-upper-bound guards). -/
def determine_category (score : ℚ) : PerformanceCategory :=
  if score < 3 then PerformanceCategory.Descarte
  else if score < 5 then PerformanceCategory.Manutencao
  else if score < 7 then PerformanceCategory.Precaucao
  else PerformanceCategory.BomEstado

/-- Step 1 of `generate_recommendations` (`engine.rs` lines 530-540):
the general messages pushed from the overall-score bands.  The discard
band pushes two strings; each other band pushes one. -/
def generalRecs (overall_score : ℚ) : List String :=
  if overall_score < 3 then
    ["🛑 CONSIDERE DESCARTE: A máquina está em estado crítico",
     "💡 Sugestão: Upgrade completo ou substituição do equipamento"]
  else if overall_score < 5 then
    ["⚠️ MANUTENÇÃO URGENTE: A máquina requer intervenção imediata"]
  else if overall_score < 7 then
    ["🔶 USO COM PRECAUÇÃO: Monitore o desempenho regularmente"]
  else
    ["✅ BOM ESTADO: A máquina está adequada para uso normal"]

/-- Step 2 of `generate_recommendations`: the conditional CPU warnings. -/
def cpuRecs (cpu : CpuInfo) : List String :=
  (if cpu.cpu_usage > 80 then
    ["🔴 CPU: Uso muito alto. Verifique processos desnecessários"] else []) ++
  (if cpu.number_cpus < 2 then
    ["🟡 CPU: Apenas 1 núcleo detectado. Limitação para multitarefa"] else [])

/-- Step 3 of `generate_recommendations`: the conditional RAM warnings. -/
def ramRecs (ram : RamInfo) : List String :=
  (if ram.ram_usage_percent > 85 then
    ["🔴 RAM: Uso acima de 85%. Considere adicionar mais memória"] else []) ++
  (if ram.total_ram < 4 * 1024 * 1024 * 1024 then
    ["🟡 RAM: Memória insuficiente para sistemas modernos"] else []) ++
  (if ram.swap_usage_percent > 50 then
    ["🔴 SWAP: Uso excessivo de memória virtual. Otimize a RAM"] else [])

/-- Rendering of a percentage inside a disk warning.  The Rust source
formats with one decimal place; the rendered digits are presentational
and no claim depends on them, so the literal rational rendering is
used. -/
def fmt_percent (q : ℚ) : String :=
  toString q

/-- Step 4 of `generate_recommendations`: the per-disk conditional
warnings, in disk order. -/
def diskRecs : List DiskInfo → ℚ → List String
  | [], _ => []
  | disk :: rest, overall_score =>
    (if disk.usage_percent > 90 then
      ["🔴 DISCO " ++ disk.name ++ ": Capacidade quase esgotada (" ++
        fmt_percent disk.usage_percent ++ "%)"] else []) ++
    (if str_contains disk.disk_type "HDD" ∧ overall_score < 7 then
      ["🟡 DISCO " ++ disk.name ++ ": HDD pode estar limitando performance"] else []) ++
    (if (disk.available_space : ℚ) / 1000000000 < 10 then
      ["🔴 DISCO " ++ disk.name ++ ": Menos de 10GB livres"] else []) ++
    diskRecs rest overall_score

/-- Step 5 of `generate_recommendations`: the closing action message of
each category (the final exhaustive `match`). -/
def closingMsg : PerformanceCategory → String
  | PerformanceCategory.Descarte => "📋 Ação recomendada: Substituir equipamento"
  | PerformanceCategory.Manutencao => "📋 Ação recomendada: Manutenção técnica urgente"
  | PerformanceCategory.Precaucao => "📋 Ação recomendada: Monitoramento contínuo"
  | PerformanceCategory.BomEstado => "📋 Ação recomendada: Manutenção preventiva regular"

/-- `generate_recommendations` from `engine.rs` lines 522-593: the five
steps' pushes, in source order. -/
def generate_recommendations (cpu : CpuInfo) (ram : RamInfo) (disks : List DiskInfo)
    (overall_score : ℚ) : List String :=
  generalRecs overall_score ++ cpuRecs cpu ++ ramRecs ram ++ diskRecs disks overall_score ++
    [closingMsg (determine_category overall_score)]

/-- The pure scoring pipeline of `calculate_performance_score`
(`engine.rs` lines 310-341), as a function of the three collected
snapshots. -/
def calculate_performance_score (cpu : CpuInfo) (ram : RamInfo)
    (disks : List DiskInfo) : PerformanceScore :=
  { overall_score := calculate_cpu_score cpu * 0.4 + calculate_ram_score ram * 0.3 +
      calculate_disk_score disks * 0.3
    cpu_score := calculate_cpu_score cpu
    ram_score := calculate_ram_score ram
    disk_score := calculate_disk_score disks
    category := determine_category (calculate_cpu_score cpu * 0.4 +
      calculate_ram_score ram * 0.3 + calculate_disk_score disks * 0.3)
    recommendations := generate_recommendations cpu ram disks (calculate_cpu_score cpu * 0.4 +
      calculate_ram_score ram * 0.3 + calculate_disk_score disks * 0.3) }

/-- The first general message of each overall-score band, keyed by the
category the same band produces in `determine_category`; used to state
that the band chain of step 1 and the category chain agree. -/
def generalHead : PerformanceCategory → String
  | PerformanceCategory.Descarte => "🛑 CONSIDERE DESCARTE: A máquina está em estado crítico"
  | PerformanceCategory.Manutencao => "⚠️ MANUTENÇÃO URGENTE: A máquina requer intervenção imediata"
  | PerformanceCategory.Precaucao => "🔶 USO COM PRECAUÇÃO: Monitore o desempenho regularmente"
  | PerformanceCategory.BomEstado => "✅ BOM ESTADO: A máquina está adequada para uso normal"

/-- Spec-side core-count factor, following the words of §4.1: 0-1 cores
give 2.0, exactly 2 gives 4.0, 3-4 give 6.0, 5-8 give 8.0, 9 or more
give 10.0. -/
def specCoresFactor (cores : ℕ) : ℚ :=
  if 9 ≤ cores then 10
  else if 5 ≤ cores then 8
  else if 3 ≤ cores then 6
  else if cores = 2 then 4
  else 2

/-- Spec-side utilization factor of §4.1, lower utilization better. -/
def specUtilizationFactor (u : ℚ) : ℚ :=
  if u < 30 then 10 else if u < 60 then 7 else if u < 85 then 4 else 1

/-- Spec-side frequency factor of §4.1. -/
def specFrequencyFactor (mhz : ℕ) : ℚ :=
  if mhz < 2000 then 3 else if mhz < 3000 then 6 else if mhz < 4000 then 8 else 10

/-- Spec-side clamp: restrict to the closed interval [0, 10]. -/
def specClamp (x : ℚ) : ℚ :=
  min 10 (max 0 x)

/-- Spec-side CPU score, following the words of §4.1: the weighted sum
of the three factors, clamped to [0, 10]. -/
def specCpuScore (cpu : CpuInfo) : ℚ :=
  specClamp (0.4 * specCoresFactor cpu.number_cpus + 0.4 * specUtilizationFactor cpu.cpu_usage +
    0.2 * specFrequencyFactor cpu.frequency)

/-- The CPU snapshot of the spec's Example 1: 8 logical cores, 20%
utilization, 3500 MHz. -/
def cpuExample1 : CpuInfo :=
  { number_cpus := 8, cpu_usage := 20, frequency := 3500, name := "Exemplo", physical_cores := none }

/-- The RAM snapshot of the spec's Example 2: 8 GiB total, 85% usage,
no swap. -/
def ramExample2 : RamInfo :=
  { total_ram := 8589934592, used_ram := 7301444403, free_ram := 1288490189,
    total_swap := 0, used_swap := 0, ram_usage_percent := 85, swap_usage_percent := 0 }

/-- The disk of the spec's Example 3: 96% usage, kind "HDD", 5 GB
available. -/
def diskExample3 : DiskInfo :=
  { name := "disco1", mount_point := "C:\\", total_space := 125000000000,
    available_space := 5000000000, used_space := 120000000000, usage_percent := 96,
    file_system := "NTFS", disk_type := "HDD" }

/-- Every clamped score lies in the closed interval [0, 10]. -/
theorem clampScore_mem (x : ℚ) : 0 ≤ clampScore x ∧ clampScore x ≤ 10 := by
  unfold clampScore
  split_ifs <;> constructor <;> linarith

/-- The source's if-chain clamp agrees with the min/max clamp of the
spec. -/
theorem clampScore_eq_specClamp (x : ℚ) : clampScore x = specClamp x := by
  unfold clampScore specClamp
  rw [max_def, min_def]
  split_ifs <;> linarith

/-- The first string pushed by the overall-score band chain of step 1 is
the general message of the category `determine_category` assigns. -/
theorem generalRecs_head (x : ℚ) :
    (generalRecs x).head? = some (generalHead (determine_category x)) := by
  unfold generalRecs determine_category
  split_ifs <;> rfl

/-- Unrolling the accumulation loop of `calculate_disk_score` from an
arbitrary running state. -/
theorem disk_fold_go (disks : List DiskInfo) (a : ℚ) (n : ℕ) :
    List.foldl (fun acc disk => (acc.1 + clampScore (disk_composite disk), acc.2 + 1))
        (a, n) disks =
      (a + (disks.map fun d => clampScore (disk_composite d)).sum, n + disks.length) := by
  induction disks generalizing a n with
  | nil => simp
  | cons d rest ih =>
    simp only [List.foldl_cons, List.map_cons, List.sum_cons, List.length_cons, ih]
    rw [Prod.mk.injEq]
    constructor
    · ring
    · omega

/-- The accumulation loop returns the sum of the clamped per-disk
composites together with the number of disks. -/
theorem disk_fold_eq (disks : List DiskInfo) :
    disk_fold disks = ((disks.map fun d => clampScore (disk_composite d)).sum, disks.length) := by
  simpa using disk_fold_go disks 0 0

/-- The summed clamped composites lie between 0 and 10 times the disk
count. -/
theorem clamp_sum_bounds (disks : List DiskInfo) :
    0 ≤ (disks.map fun d => clampScore (disk_composite d)).sum ∧
      (disks.map fun d => clampScore (disk_composite d)).sum ≤ 10 * disks.length := by
  induction disks with
  | nil => simp
  | cons d rest ih =>
    have hd := clampScore_mem (disk_composite d)
    simp only [List.map_cons, List.sum_cons, List.length_cons]
    constructor
    · linarith [ih.1]
    · push_cast
      linarith [ih.2]

/-- The disk score always lies in [0, 10]. -/
theorem disk_score_mem (disks : List DiskInfo) :
    0 ≤ calculate_disk_score disks ∧ calculate_disk_score disks ≤ 10 := by
  unfold calculate_disk_score
  rw [disk_fold_eq]
  rcases disks with _ | ⟨d, rest⟩
  · norm_num
  · have hb := clamp_sum_bounds (d :: rest)
    have hpos : 0 < (d :: rest).length := by simp
    have hlen : (0:ℚ) < ((d :: rest).length : ℚ) := by exact_mod_cast hpos
    simp only [List.isEmpty_cons, Bool.false_eq_true, if_false]
    rw [if_pos hpos]
    constructor
    · exact div_nonneg hb.1 (le_of_lt hlen)
    · rw [div_le_iff₀ hlen]
      exact hb.2

/-- Claim C1 counterexample: at overall score 2.5 (the discard band) the
band chain of step 1 pushes two messages, not exactly one. -/
theorem generalRecs_discard_band_two :
    (generalRecs ((5:ℚ)/2)).length = 2 ∧ ¬ (generalRecs ((5:ℚ)/2)).length = 1 := by
  constructor <;> norm_num [generalRecs]

/-- Claim C1 (amended): for every overall score the first element of the
step-1 band messages is the general message of the category the same
score receives from `determine_category`; the discard band emits two
messages (general message plus an upgrade suggestion) and every other
band emits exactly one. -/
theorem generalRecs_emission (overall_score : ℚ) :
    (generalRecs overall_score).head? = some (generalHead (determine_category overall_score)) ∧
    (generalRecs overall_score).length = if overall_score < 3 then 2 else 1 := by
  refine ⟨generalRecs_head overall_score, ?_⟩
  unfold generalRecs
  split_ifs <;> rfl

/-- Claim C2 counterexample: on the CPU snapshot of Example 1 (8 cores,
20% utilization, 3500 MHz) the CPU score is not 8.0. -/
theorem cpu_example_not_eight : calculate_cpu_score cpuExample1 ≠ 8 := by
  norm_num [calculate_cpu_score, cores_score, usage_score, freq_score, clampScore, cpuExample1]

/-- Claim C2 (amended): on the CPU snapshot of Example 1 the CPU score
is exactly 8.8 (the weighted sum 8.0·0.4 + 10.0·0.4 + 8.0·0.2). -/
theorem cpu_example_score : calculate_cpu_score cpuExample1 = 8.8 := by
  norm_num [calculate_cpu_score, cores_score, usage_score, freq_score, clampScore, cpuExample1]

/-- Claim C4: on [0, 10] the category function assigns each overall
score to exactly one tier, by the four half-open bands, and the boundary
scores 3, 5 and 7 each fall in the higher band. -/
theorem determine_category_partition (x : ℚ) (h0 : 0 ≤ x) (h10 : x ≤ 10) :
    (determine_category x = PerformanceCategory.Descarte ↔ x < 3) ∧
    (determine_category x = PerformanceCategory.Manutencao ↔ 3 ≤ x ∧ x < 5) ∧
    (determine_category x = PerformanceCategory.Precaucao ↔ 5 ≤ x ∧ x < 7) ∧
    (determine_category x = PerformanceCategory.BomEstado ↔ 7 ≤ x) ∧
    determine_category 3 = PerformanceCategory.Manutencao ∧
    determine_category 5 = PerformanceCategory.Precaucao ∧
    determine_category 7 = PerformanceCategory.BomEstado := by
  refine ⟨?_, ?_, ?_, ?_, by norm_num [determine_category], by norm_num [determine_category],
    by norm_num [determine_category]⟩
  all_goals unfold determine_category
  all_goals split_ifs <;> simp_all
  all_goals try intros
  all_goals linarith

/-- Claim C4 witness: the partition at the boundary score 3. -/
theorem determine_category_partition_witness :
    (determine_category 3 = PerformanceCategory.Descarte ↔ (3:ℚ) < 3) ∧
    (determine_category 3 = PerformanceCategory.Manutencao ↔ (3:ℚ) ≤ 3 ∧ (3:ℚ) < 5) ∧
    (determine_category 3 = PerformanceCategory.Precaucao ↔ (5:ℚ) ≤ 3 ∧ (3:ℚ) < 7) ∧
    (determine_category 3 = PerformanceCategory.BomEstado ↔ (7:ℚ) ≤ 3) ∧
    determine_category 3 = PerformanceCategory.Manutencao ∧
    determine_category 5 = PerformanceCategory.Precaucao ∧
    determine_category 7 = PerformanceCategory.BomEstado :=
  determine_category_partition 3 (by norm_num) (by norm_num)

/-- Claim C5: for every CPU snapshot the source's CPU score equals the
spec's formula — the weighted sum of the spec's three step factors
(weights 0.4, 0.4, 0.2) clamped to [0, 10]. -/
theorem cpu_score_refines_spec (cpu : CpuInfo) :
    calculate_cpu_score cpu = specCpuScore cpu := by
  have hc : cores_score cpu.number_cpus = specCoresFactor cpu.number_cpus := by
    unfold cores_score specCoresFactor
    split_ifs <;> first | rfl | (exfalso; omega)
  have hu : usage_score cpu.cpu_usage = specUtilizationFactor cpu.cpu_usage := rfl
  have hf : freq_score cpu.frequency = specFrequencyFactor cpu.frequency := rfl
  unfold calculate_cpu_score specCpuScore
  rw [hc, hu, hf, clampScore_eq_specClamp]
  congr 1
  ring

/-- Claim C3: for every valid snapshot (percentages in [0, 100]) each
component score and the overall weighted score of the engine lies in
[0, 10], the overall score without any final clamp of its own. -/
theorem scores_in_range (cpu : CpuInfo) (ram : RamInfo) (disks : List DiskInfo)
    (hcu0 : 0 ≤ cpu.cpu_usage) (hcu1 : cpu.cpu_usage ≤ 100)
    (hru0 : 0 ≤ ram.ram_usage_percent) (hru1 : ram.ram_usage_percent ≤ 100)
    (hsu0 : 0 ≤ ram.swap_usage_percent) (hsu1 : ram.swap_usage_percent ≤ 100)
    (hdu : ∀ d ∈ disks, 0 ≤ d.usage_percent ∧ d.usage_percent ≤ 100) :
    0 ≤ (calculate_performance_score cpu ram disks).cpu_score ∧
    (calculate_performance_score cpu ram disks).cpu_score ≤ 10 ∧
    0 ≤ (calculate_performance_score cpu ram disks).ram_score ∧
    (calculate_performance_score cpu ram disks).ram_score ≤ 10 ∧
    0 ≤ (calculate_performance_score cpu ram disks).disk_score ∧
    (calculate_performance_score cpu ram disks).disk_score ≤ 10 ∧
    0 ≤ (calculate_performance_score cpu ram disks).overall_score ∧
    (calculate_performance_score cpu ram disks).overall_score ≤ 10 := by
  have hc := clampScore_mem (cores_score cpu.number_cpus * 0.4 +
    usage_score cpu.cpu_usage * 0.4 + freq_score cpu.frequency * 0.2)
  have hr := clampScore_mem (ram_usage_score ram.ram_usage_percent * 0.5 +
    swap_score ram * 0.3 + capacity_score ram.total_ram * 0.2)
  have hdk := disk_score_mem disks
  simp only [calculate_performance_score, calculate_cpu_score, calculate_ram_score]
  refine ⟨hc.1, hc.2, hr.1, hr.2, hdk.1, hdk.2, ?_, ?_⟩ <;>
    linarith [hc.1, hc.2, hr.1, hr.2, hdk.1, hdk.2]

/-- Claim C3 witness: the ranges at the Example 1 CPU snapshot, the
Example 2 RAM snapshot, and an empty disk list. -/
theorem scores_in_range_witness :
    0 ≤ (calculate_performance_score cpuExample1 ramExample2 []).cpu_score ∧
    (calculate_performance_score cpuExample1 ramExample2 []).cpu_score ≤ 10 ∧
    0 ≤ (calculate_performance_score cpuExample1 ramExample2 []).ram_score ∧
    (calculate_performance_score cpuExample1 ramExample2 []).ram_score ≤ 10 ∧
    0 ≤ (calculate_performance_score cpuExample1 ramExample2 []).disk_score ∧
    (calculate_performance_score cpuExample1 ramExample2 []).disk_score ≤ 10 ∧
    0 ≤ (calculate_performance_score cpuExample1 ramExample2 []).overall_score ∧
    (calculate_performance_score cpuExample1 ramExample2 []).overall_score ≤ 10 :=
  scores_in_range cpuExample1 ramExample2 []
    (by norm_num [cpuExample1]) (by norm_num [cpuExample1])
    (by norm_num [ramExample2]) (by norm_num [ramExample2])
    (by norm_num [ramExample2]) (by norm_num [ramExample2])
    (by simp)

/-- Claim C6: for every input the recommendation list is non-empty, its
first element is the general message of the overall score's band, and
its last element is the closing action of the category the same score
receives from `determine_category` — the two category switch sites
agree. -/
theorem recommendations_first_last (cpu : CpuInfo) (ram : RamInfo) (disks : List DiskInfo)
    (overall_score : ℚ) :
    generate_recommendations cpu ram disks overall_score ≠ [] ∧
    (generate_recommendations cpu ram disks overall_score).head? =
      some (generalHead (determine_category overall_score)) ∧
    (generate_recommendations cpu ram disks overall_score).getLast? =
      some (closingMsg (determine_category overall_score)) := by
  refine ⟨?_, ?_, ?_⟩
  · unfold generate_recommendations
    simp
  · unfold generate_recommendations
    rw [List.head?_append, List.head?_append, List.head?_append, List.head?_append,
      generalRecs_head]
    rfl
  · unfold generate_recommendations
    rw [List.getLast?_concat]

/-- Claim C7: with total swap 0 the swap factor is the fixed neutral 8
whatever the other swap fields hold, and the Example 2 RAM snapshot
(8 GiB total, 85% usage, no swap) scores exactly 6. -/
theorem swap_zero_neutral (ram : RamInfo) (h : ram.total_swap = 0) :
    swap_score ram = 8 ∧ calculate_ram_score ramExample2 = 6 := by
  constructor
  · unfold swap_score
    rw [if_pos h]
  · norm_num [calculate_ram_score, ram_usage_score, swap_score, capacity_score, clampScore,
      ramExample2]

/-- Claim C7 witness: the swap factor and full RAM score at the
Example 2 snapshot. -/
theorem swap_zero_neutral_witness :
    swap_score ramExample2 = 8 ∧ calculate_ram_score ramExample2 = 6 :=
  swap_zero_neutral ramExample2 rfl

/-- Claim C8: for every non-empty disk list the disk score is the
unweighted arithmetic mean of the clamped per-disk composites, and the
single Example 3 disk (96% usage, "HDD", 5 GB free) scores exactly
2.5. -/
theorem disk_score_is_mean (disks : List DiskInfo) (h : disks ≠ []) :
    calculate_disk_score disks =
      ((disks.map fun d => clampScore (disk_composite d)).sum) / (disks.length : ℚ) ∧
    calculate_disk_score [diskExample3] = 2.5 := by
  constructor
  · have hpos : 0 < disks.length := List.length_pos.mpr h
    have hne : ¬ disks.isEmpty = true := by simp [List.isEmpty_iff, h]
    simp only [calculate_disk_score, disk_fold_eq]
    rw [if_neg hne, if_pos hpos]
  · have hT : disk_type_score "HDD" = 6 := by rfl
    norm_num [calculate_disk_score, disk_fold, disk_composite, disk_usage_score, hT,
      free_space_score, clampScore, diskExample3, List.foldl]

/-- Claim C8 witness: the mean formula and the exact value at the
single-disk list of Example 3. -/
theorem disk_score_is_mean_witness :
    calculate_disk_score [diskExample3] =
      (([diskExample3].map fun d => clampScore (disk_composite d)).sum) /
        (([diskExample3].length : ℕ) : ℚ) ∧
    calculate_disk_score [diskExample3] = 2.5 :=
  disk_score_is_mean [diskExample3] (by simp)

/-- Claim C9: the explicit zero-denominator guards make the engine total
on degenerate inputs — zero total RAM, zero total swap and zero disk
space give 0% usage, and an empty disk list scores the neutral 5. -/
theorem zero_denominator_guards (used_r used_s used_d : ℕ) :
    ram_usage_percent_of used_r 0 = 0 ∧ swap_usage_percent_of used_s 0 = 0 ∧
    disk_usage_percent_of used_d 0 = 0 ∧ calculate_disk_score [] = 5 := by
  refine ⟨?_, ?_, ?_, ?_⟩ <;>
    simp [ram_usage_percent_of, swap_usage_percent_of, disk_usage_percent_of,
      calculate_disk_score]

/-- Claim C10: the collector's used-space computation is the unguarded
subtraction `total_space - available_space`; when available space does
not exceed total space it cannot underflow and returns the exact
difference, and the underflow branch is reachable (at total 0,
available 1). -/
theorem used_space_subtraction (total_space available_space : ℕ)
    (h : available_space ≤ total_space) :
    used_space_of total_space available_space = some (total_space - available_space) ∧
    used_space_of 0 1 = none := by
  constructor
  · unfold used_space_of
    rw [if_pos h]
  · rfl

/-- Claim C10 witness: the guarded difference at total 5, available 3. -/
theorem used_space_subtraction_witness :
    used_space_of 5 3 = some 2 ∧ used_space_of 0 1 = none :=
  used_space_subtraction 5 3 (by norm_num)
